import Mathlib

/-!
Verification of the paper-cutting API server (`scripts/api_server.py`).

The server orchestrates: mutate a workflow document with an input-image
reference and a seed, submit it to the generation engine (`POST /prompt`),
poll `GET /history/{prompt_id}` until the output node "60" has an image,
download the artifact from `/view`, publish it to remote storage, and
answer the caller.

Shallow embedding conventions:
- Python dicts that the code indexes by string keys become association
  lists (`List (String × _)`); dict assignment becomes `setAssoc`.
- Python strings are `String` (or `List Char` for character-level slicing).
- HTTP responses of the external collaborators (engine, storage) are
  parameters of the embedded functions: each embedded step takes the
  response it would have received over the wire.
- Python falsiness of an optional string / the optional `seed` integer is
  modelled explicitly (`optStrFalsy`, the zero test in `actualSeed`).
- The polling loop's wall clock is modelled by a per-attempt duration
  (`AttemptEnv.dur`); `time.sleep(3)` guarantees every attempt consumes at
  least 3 time units.  Recursion is on a fuel argument, a modelling
  artifact: with every attempt consuming at least one time unit the loop
  of `while time.time() - start_time < 300` runs at most 300 iterations,
  so any fuel of at least 301 is never exhausted (`pollFuel = 350`).
-/

set_option autoImplicit false

namespace PaperCutting

/-- A JSON scalar stored in a workflow node input (the code only ever
writes a filename string and an integer seed). -/
inductive JValue where
  | str : String → JValue
  | int : Int → JValue
  deriving DecidableEq, Repr

/-- One node of the workflow document: its `"inputs"` dict. -/
structure WfNode where
  inputs : List (String × JValue)
  deriving DecidableEq, Repr

/-- The WorkflowDocument: node identifier → node descriptor. -/
def Workflow : Type := List (String × WfNode)

/-- First-match association-list lookup (Python `d[k]` / `k in d`). -/
def lookupA {α : Type} : List (String × α) → String → Option α
  | [], _ => none
  | p :: rest, key => if p.1 = key then some p.2 else lookupA rest key

/-- Python dict assignment `d[k] = v`: replace the value at an existing
key, else append the new binding. -/
def setAssoc {α : Type} (l : List (String × α)) (k : String) (v : α) :
    List (String × α) :=
  if (lookupA l k).isSome then
    l.map (fun p => if p.1 = k then (k, v) else p)
  else l ++ [(k, v)]

/-- `if nodeKey in workflow: workflow[nodeKey]["inputs"][field] = v`
(lines 230-231, 239-240, 342-343, 351-352 of `api_server.py`). -/
def setNodeInput (wf : Workflow) (nodeKey field : String) (v : JValue) :
    Workflow :=
  if (lookupA wf nodeKey).isSome then
    wf.map (fun p =>
      if p.1 = nodeKey then (p.1, WfNode.mk (setAssoc p.2.inputs field v))
      else p)
  else wf

/-- `actual_seed = seed if seed else random.randint(1, 2**32 - 1)`
(line 235; identically line 347).  `rand` stands for the value drawn by
`random.randint(1, 2**32 - 1)`.  Python falsiness: both `None` and `0`
select the random value. -/
def actualSeed (seed : Option Int) (rand : Nat) : Int :=
  match seed with
  | some s => if s = 0 then (rand : Int) else s
  | none => (rand : Int)

/-- The workflow-mutation step of both generate handlers: set node `"78"`
input `"image"`, then node `"115:3"` input `"seed"`, each only when the
node key is present (lines 229-240 / 341-352). -/
def prepareWorkflowDoc (wf : Workflow) (inputImageFilename : String)
    (seedVal : Int) : Workflow :=
  setNodeInput (setNodeInput wf "78" "image" (JValue.str inputImageFilename))
    "115:3" "seed" (JValue.int seedVal)

/-- The WorkflowDocument as submitted to `POST /prompt`: the template
mutated with the staged input filename and the actual seed. -/
def submittedWorkflow (wf : Workflow) (inputImageFilename : String)
    (seed : Option Int) (rand : Nat) : Workflow :=
  prepareWorkflowDoc wf inputImageFilename (actualSeed seed rand)

/-- Python falsiness of `None`-or-string values (`if not prompt_id`,
`if online_url: ... else: raise`). -/
def optStrFalsy : Option String → Bool
  | none => true
  | some s => s.isEmpty

/-- The engine's response to the submission `POST /prompt`: HTTP status,
raw body text, and the parsed `prompt_id` field (absent → `none`). -/
structure SubmitResponse where
  status : Nat
  body : String
  promptId : Option String
  deriving DecidableEq, Repr

/-- Submission handling, lines 246-257: non-200 status raises
`HTTPException(500, "ComfyUI 错误: " + body)`; a falsy `prompt_id` raises
`HTTPException(500, "未能获取 prompt_id")`; otherwise the job id is
returned and polling begins. -/
def submitStep (r : SubmitResponse) : Except (Nat × String) String :=
  if r.status ≠ 200 then Except.error (500, "ComfyUI 错误: " ++ r.body)
  else
    match r.promptId with
    | none => Except.error (500, "未能获取 prompt_id")
    | some pid =>
        if pid.isEmpty then Except.error (500, "未能获取 prompt_id")
        else Except.ok pid

/-- One image entry of the history response; `get` with no default may be
absent (`filename`), the others default to `''` / `'output'`. -/
structure ImageEntry where
  filename : Option String
  subfolder : Option String
  ftype : Option String
  deriving DecidableEq, Repr

/-- The `outputs[nodeId]` object: its `"images"` list. -/
structure NodeOutput where
  images : List ImageEntry
  deriving DecidableEq, Repr

/-- The `history_data[prompt_id]` object: its `"outputs"` dict. -/
structure JobHistory where
  outputs : List (String × NodeOutput)
  deriving DecidableEq, Repr

/-- The outcome of one `GET /history/{prompt_id}` call: a timeout
(`requests.exceptions.Timeout`), another transient I/O error, or an HTTP
response with a status and a parsed history body. -/
inductive PollResponse where
  | timeout : PollResponse
  | ioError : PollResponse
  | ok : Nat → List (String × JobHistory) → PollResponse
  deriving DecidableEq, Repr

/-- {filename, subfolder, folder_type} extracted from the first image
entry (lines 279-281): `images[0].get('filename')`,
`images[0].get('subfolder', '')`, `images[0].get('type', 'output')`. -/
structure ArtifactRef where
  filename : Option String
  subfolder : String
  ftype : String
  deriving DecidableEq, Repr

/-- Lines 267-281: decide from one poll response whether the job is done.
Returns `some ref` exactly when the response has status 200, contains the
job id, node `"60"` is among its outputs and the image list is non-empty;
`ref` is built from the first image entry alone. -/
def pollDecision (pid : String) (p : PollResponse) : Option ArtifactRef :=
  match p with
  | PollResponse.timeout => none
  | PollResponse.ioError => none
  | PollResponse.ok status hist =>
    if status = 200 then
      match lookupA hist pid with
      | some jh =>
        match lookupA jh.outputs "60" with
        | some out =>
          match out.images with
          | [] => none
          | e :: _ =>
              some ⟨e.filename, e.subfolder.getD "", e.ftype.getD "output"⟩
        | none => none
      | none => none
    else none

/-- The storage endpoint's response to `POST {UPLOAD_API_URL}/system/v1/upload`:
HTTP status, the parsed `value` field, and the raw body text (which also
stands for the repr of the parsed dict in error messages). -/
structure PublishResponse where
  status : Nat
  value : Option String
  body : String
  deriving DecidableEq, Repr

/-- `upload_to_remote_server` (lines 136-155), given the storage response:
status 200 with a truthy `value` returns that URL; a falsy `value` raises
`响应中未包含地址`; a non-200 status raises `上传失败` with status and body. -/
def uploadToRemoteServer (r : PublishResponse) : Except String String :=
  if r.status = 200 then
    match r.value with
    | some v =>
        if v.isEmpty then Except.error ("响应中未包含地址: " ++ r.body)
        else Except.ok v
    | none => Except.error ("响应中未包含地址: " ++ r.body)
  else Except.error ("上传失败: " ++ toString r.status ++ " - " ++ r.body)

/-- Python `f"{x}"` applied to an optional string (`None` prints as
`"None"`). -/
def pyStr (o : Option String) : String := o.getD "None"

/-- The terminal response object returned to the caller on the 200 path. -/
structure GenerateResponse where
  success : Bool
  image_url : Option String
  prompt_id : Option String
  error : Option String
  deriving DecidableEq, Repr

/-- The same-process fallback proxy URL (lines 300 / 412):
`f"http://localhost:8080/api/image/{filename}?type={folder_type}"`. -/
def proxyUrl (ref : ArtifactRef) : String :=
  "http://localhost:8080/api/image/" ++ pyStr ref.filename ++ "?type="
    ++ ref.ftype

/-- Lines 292-301: try to publish the downloaded bytes; on success answer
with the published URL, on any publication failure answer with the proxy
URL.  Either way `success = true`. -/
def publishOrFallback (ref : ArtifactRef) (pid : String)
    (pub : PublishResponse) : GenerateResponse :=
  match uploadToRemoteServer pub with
  | Except.ok url => ⟨true, some url, some pid, none⟩
  | Except.error _ => ⟨true, some (proxyUrl ref), some pid, none⟩

/-- The external behaviour one polling iteration can observe: the history
response, the HTTP status of the `/view` download (consulted only when the
decision is `some`), the storage response (consulted only after a
successful download), and the wall-clock time the iteration consumes
(`sleep(3)` plus request time, hence at least 3). -/
structure AttemptEnv where
  poll : PollResponse
  downloadStatus : Nat
  publish : PublishResponse
  dur : Nat
  deriving DecidableEq, Repr

/-- Outcome of one iteration of the polling `while` body. -/
inductive AttemptOutcome where
  | cont : AttemptOutcome
  | finished : GenerateResponse → AttemptOutcome
  deriving DecidableEq, Repr

/-- One iteration of the polling loop body (lines 266-307): a transient
poll failure or a non-qualifying response falls through to the sleep; a
qualifying response downloads the artifact; a non-200 download raises
`Exception("无法下载生成的图片")`, which is caught by this very loop's own
`except Exception` handler (line 306) and so also continues polling; a 200
download publishes (with fallback) and returns. -/
def pollAttempt (pid : String) (e : AttemptEnv) : AttemptOutcome :=
  match pollDecision pid e.poll with
  | none => AttemptOutcome.cont
  | some ref =>
    if e.downloadStatus = 200 then
      AttemptOutcome.finished (publishOrFallback ref pid e.publish)
    else AttemptOutcome.cont

/-- What the caller ultimately receives: a 200 body, or an
`HTTPException`-style (status, detail) failure. -/
inductive HttpResult where
  | ok : GenerateResponse → HttpResult
  | fail : Nat → String → HttpResult
  deriving DecidableEq, Repr

/-- `max_wait = 300` (lines 262 / 374). -/
def maxWait : Nat := 300

/-- The polling loop, lines 265-311: while the elapsed time `t` is below
`maxWait`, run one attempt against the `i`-th observed environment;
afterwards raise `HTTPException(408, "生成超时")`.  `fuel` bounds the
recursion and is never exhausted when every attempt consumes time. -/
def runPollingAux (pid : String) (env : Nat → AttemptEnv) :
    Nat → Nat → Nat → Option HttpResult
  | 0, _, t =>
    if t < maxWait then none
    else some (HttpResult.fail 408 "生成超时")
  | Nat.succ fuel, i, t =>
    if t < maxWait then
      match pollAttempt pid (env i) with
      | AttemptOutcome.finished r => some (HttpResult.ok r)
      | AttemptOutcome.cont =>
          runPollingAux pid env fuel (i + 1) (t + (env i).dur)
    else some (HttpResult.fail 408 "生成超时")

/-- Ample fuel: at least `maxWait + 1` iterations are available, more than
the loop can ever run when each attempt consumes at least one time unit. -/
def pollFuel : Nat := 350

/-- The submission-and-polling core of both generate handlers: submit,
then poll from elapsed time 0. -/
def generateCore (submitResp : SubmitResponse) (env : Nat → AttemptEnv) :
    Option HttpResult :=
  match submitStep submitResp with
  | Except.error e => some (HttpResult.fail e.1 e.2)
  | Except.ok pid => runPollingAux pid env pollFuel 0 0

/-- Python `s.split(',', 1)[1]` character level: everything after the
first occurrence of `c`. -/
def splitOnceAfter (c : Char) : List Char → List Char
  | [] => []
  | x :: xs => if x = c then xs else splitOnceAfter c xs

/-- The data-URI-header strip of `upload_base64_to_comfyui`
(lines 126-127): `if ',' in s: s = s.split(',', 1)[1]`, on the character
list of the Python string. -/
def stripB64Header (s : List Char) : List Char :=
  if s.contains ',' then splitOnceAfter ',' s else s

/-! ### Association-list lemmas -/

theorem lookupA_map_update (f : WfNode → WfNode) (nk k : String)
    (hne : k ≠ nk) :
    ∀ l : List (String × WfNode),
      lookupA (l.map (fun p => if p.1 = nk then (p.1, f p.2) else p)) k
        = lookupA l k := by
  intro l
  induction l with
  | nil => rfl
  | cons p rest ih =>
    obtain ⟨a, b⟩ := p
    by_cases hank : a = nk
    · subst hank
      simp [lookupA, Ne.symm hne, ih]
    · by_cases hak : a = k
      · subst hak
        simp [lookupA, hank]
      · simp [lookupA, hank, hak, ih]

theorem lookupA_map_update_self (f : WfNode → WfNode) (nk : String) :
    ∀ (l : List (String × WfNode)) (node : WfNode),
      lookupA l nk = some node →
      lookupA (l.map (fun p => if p.1 = nk then (p.1, f p.2) else p)) nk
        = some (f node) := by
  intro l
  induction l with
  | nil => intro node h; simp [lookupA] at h
  | cons p rest ih =>
    intro node h
    obtain ⟨a, b⟩ := p
    by_cases hank : a = nk
    · subst hank
      simp [lookupA] at h
      simp [lookupA, h]
    · simp [lookupA, hank] at h ⊢
      exact ih node h

theorem lookupA_map_set {α : Type} (k : String) (v : α) :
    ∀ l : List (String × α), (lookupA l k).isSome →
      lookupA (l.map (fun p => if p.1 = k then (k, v) else p)) k = some v := by
  intro l
  induction l with
  | nil => intro h; simp [lookupA] at h
  | cons p rest ih =>
    intro h
    obtain ⟨a, b⟩ := p
    by_cases hak : a = k
    · subst hak
      simp [lookupA]
    · simp [lookupA, hak] at h ⊢
      exact ih h

theorem lookupA_append_set {α : Type} (k : String) (v : α) :
    ∀ l : List (String × α), lookupA l k = none →
      lookupA (l ++ [(k, v)]) k = some v := by
  intro l
  induction l with
  | nil => intro h; simp [lookupA]
  | cons p rest ih =>
    intro h
    obtain ⟨a, b⟩ := p
    by_cases hak : a = k
    · subst hak
      simp [lookupA] at h
    · simp [lookupA, hak] at h ⊢
      exact ih h

theorem lookupA_setAssoc_self {α : Type} (k : String) (v : α)
    (l : List (String × α)) : lookupA (setAssoc l k v) k = some v := by
  unfold setAssoc
  by_cases hin : (lookupA l k).isSome
  · rw [if_pos hin]; exact lookupA_map_set k v l hin
  · rw [if_neg hin]
    exact lookupA_append_set k v l (Option.not_isSome_iff_eq_none.mp hin)

theorem setNodeInput_frame (wf : Workflow) (nk fld : String) (v : JValue)
    (k : String) (hne : k ≠ nk) :
    lookupA (setNodeInput wf nk fld v) k = lookupA wf k := by
  unfold setNodeInput
  by_cases hin : (lookupA wf nk).isSome
  · rw [if_pos hin]
    exact lookupA_map_update (fun nd => WfNode.mk (setAssoc nd.inputs fld v))
      nk k hne wf
  · rw [if_neg hin]

theorem setNodeInput_absent (wf : Workflow) (nk fld : String) (v : JValue)
    (h : lookupA wf nk = none) : setNodeInput wf nk fld v = wf := by
  unfold setNodeInput
  rw [if_neg (by rw [h]; simp)]

theorem setNodeInput_present (wf : Workflow) (nk fld : String) (v : JValue)
    (node : WfNode) (h : lookupA wf nk = some node) :
    lookupA (setNodeInput wf nk fld v) nk
      = some (WfNode.mk (setAssoc node.inputs fld v)) := by
  unfold setNodeInput
  rw [if_pos (by rw [h]; simp)]
  exact lookupA_map_update_self
    (fun nd => WfNode.mk (setAssoc nd.inputs fld v)) nk wf node h

/-! ### Claims about the workflow mutation (C1, C8) -/

/-- C1 counterexample: the claim says a caller-supplied seed — including
seed = 0 — is written verbatim into the seed node.  With seed 0 supplied
and the random draw being 7, the submitted document carries seed 7, not 0:
`seed if seed else random.randint(...)` treats 0 as absent. -/
theorem c1_seed_zero_counterexample :
    lookupA (submittedWorkflow [("115:3", WfNode.mk [("seed", JValue.int 999)])]
        "img.png" (some 0) 7) "115:3"
      = some (WfNode.mk [("seed", JValue.int 7)]) ∧ (7 : Int) ≠ 0 := by
  constructor
  · decide
  · decide

/-- C1 (amended): when the seed node "115:3" exists, a caller-supplied
NONZERO seed is written verbatim into its `"seed"` input; when the seed is
absent or 0, the written seed is the value drawn by
`random.randint(1, 2**32 - 1)`, hence lies in `[1, 2^32 - 1]`. -/
theorem c1_seed_amended (wf : Workflow) (node : WfNode)
    (hnode : lookupA wf "115:3" = some node) (f : String)
    (seed : Option Int) (rand : Nat)
    (hr1 : 1 ≤ rand) (hr2 : rand ≤ 2 ^ 32 - 1) :
    (∀ s : Int, seed = some s → s ≠ 0 →
      ∃ nd : WfNode,
        lookupA (submittedWorkflow wf f seed rand) "115:3" = some nd ∧
        lookupA nd.inputs "seed" = some (JValue.int s)) ∧
    ((seed = none ∨ seed = some 0) →
      ∃ r : Nat, 1 ≤ r ∧ r ≤ 2 ^ 32 - 1 ∧
        ∃ nd : WfNode,
          lookupA (submittedWorkflow wf f seed rand) "115:3" = some nd ∧
          lookupA nd.inputs "seed" = some (JValue.int r)) := by
  have h78 : lookupA (setNodeInput wf "78" "image" (JValue.str f)) "115:3"
      = some node := by
    rw [setNodeInput_frame wf "78" "image" (JValue.str f) "115:3" (by decide)]
    exact hnode
  unfold submittedWorkflow prepareWorkflowDoc
  constructor
  · intro s hs hs0
    refine ⟨WfNode.mk (setAssoc node.inputs "seed"
      (JValue.int (actualSeed seed rand))), ?_, ?_⟩
    · exact setNodeInput_present _ _ _ _ node h78
    · rw [lookupA_setAssoc_self]
      subst hs
      simp [actualSeed, hs0]
  · intro hcase
    refine ⟨rand, hr1, hr2,
      WfNode.mk (setAssoc node.inputs "seed"
        (JValue.int (actualSeed seed rand))),
      setNodeInput_present _ _ _ _ node h78, ?_⟩
    rw [lookupA_setAssoc_self]
    rcases hcase with h | h <;> subst h <;> simp [actualSeed]

/-- Witness for `c1_seed_amended` at a concrete input. -/
theorem c1_seed_witness :
    ∃ nd : WfNode,
      lookupA (submittedWorkflow [("115:3", WfNode.mk [])] "img.png"
        (some 42) 7) "115:3" = some nd ∧
      lookupA nd.inputs "seed" = some (JValue.int 42) :=
  (c1_seed_amended [("115:3", WfNode.mk [])] (WfNode.mk [])
    (by decide) "img.png" (some 42) 7 (by decide) (by decide)).1 42 rfl
    (by decide)

/-- C8: a workflow missing node "78" or "115:3" is processed without
error, the missing node simply staying unset; and the preparation step
never touches any node other than "78" and "115:3". -/
theorem c8_mutation_frame (wf : Workflow) (f : String) (s : Int) :
    (lookupA wf "78" = none →
      lookupA (prepareWorkflowDoc wf f s) "78" = none) ∧
    (lookupA wf "115:3" = none →
      lookupA (prepareWorkflowDoc wf f s) "115:3" = none) ∧
    (∀ k : String, k ≠ "78" → k ≠ "115:3" →
      lookupA (prepareWorkflowDoc wf f s) k = lookupA wf k) := by
  unfold prepareWorkflowDoc
  refine ⟨?_, ?_, ?_⟩
  · intro h
    rw [setNodeInput_frame _ _ _ _ _ (by decide),
      setNodeInput_absent wf _ _ _ h]
    exact h
  · intro h
    have h2 : lookupA (setNodeInput wf "78" "image" (JValue.str f)) "115:3"
        = none := by
      rw [setNodeInput_frame wf _ _ _ _ (by decide)]
      exact h
    rw [setNodeInput_absent _ _ _ _ h2]
    exact h2
  · intro k h78 h115
    rw [setNodeInput_frame _ _ _ _ _ h115, setNodeInput_frame _ _ _ _ _ h78]

/-- Witness for `c8_mutation_frame` at a concrete input. -/
theorem c8_mutation_frame_witness :
    lookupA (prepareWorkflowDoc [("77", WfNode.mk [])] "img.png" 5) "77"
      = lookupA [("77", WfNode.mk [])] "77" :=
  (c8_mutation_frame [("77", WfNode.mk [])] "img.png" 5).2.2 "77"
    (by decide) (by decide)

/-! ### Polling-loop lemmas -/

theorem pollAttempt_cont_of_none (pid : String) (e : AttemptEnv)
    (h : pollDecision pid e.poll = none) :
    pollAttempt pid e = AttemptOutcome.cont := by
  unfold pollAttempt
  rw [h]

theorem runPollingAux_timeout (pid : String) (env : Nat → AttemptEnv)
    (hq : ∀ j, pollDecision pid (env j).poll = none)
    (hd : ∀ j, 3 ≤ (env j).dur) :
    ∀ (fuel i t : Nat), maxWait ≤ t + 3 * fuel →
      runPollingAux pid env fuel i t
        = some (HttpResult.fail 408 "生成超时") := by
  intro fuel
  induction fuel with
  | zero =>
    intro i t h
    unfold runPollingAux
    rw [if_neg (by simp only [maxWait] at h ⊢; omega)]
  | succ fuel ih =>
    intro i t h
    unfold runPollingAux
    by_cases hlt : t < maxWait
    · rw [if_pos hlt, pollAttempt_cont_of_none pid (env i) (hq i)]
      exact ih (i + 1) (t + (env i).dur)
        (by have := hd i; simp only [maxWait] at h ⊢; omega)
    · rw [if_neg hlt]

theorem runPollingAux_step_finished (pid : String) (env : Nat → AttemptEnv)
    (fuel i t : Nat) (hlt : t < maxWait) (r : GenerateResponse)
    (hfin : pollAttempt pid (env i) = AttemptOutcome.finished r) :
    runPollingAux pid env (Nat.succ fuel) i t = some (HttpResult.ok r) := by
  unfold runPollingAux
  rw [if_pos hlt, hfin]

/-! ### Claims about submission and polling (C2, C3, C5) -/

/-- C2: if no poll response ever qualifies (job id present with a
non-empty image list under output node "60"), the loop exhausts the
300-unit budget and the caller gets `HTTPException(408)`; moreover a
per-attempt timeout or transient I/O error always yields `cont`, never a
termination of the loop. -/
theorem c2_polling_times_out (r : SubmitResponse) (pid : String)
    (hs : r.status = 200) (hp : r.promptId = some pid)
    (hpe : pid.isEmpty = false) (env : Nat → AttemptEnv)
    (hd : ∀ i, 3 ≤ (env i).dur)
    (hq : ∀ i, pollDecision pid (env i).poll = none) :
    generateCore r env = some (HttpResult.fail 408 "生成超时") ∧
    (∀ e : AttemptEnv,
      e.poll = PollResponse.timeout ∨ e.poll = PollResponse.ioError →
      pollAttempt pid e = AttemptOutcome.cont) := by
  constructor
  · have key : submitStep r = Except.ok pid := by
      unfold submitStep
      rw [if_neg (by simp [hs]), hp]
      simp [hpe]
    unfold generateCore
    rw [key]
    exact runPollingAux_timeout pid env hq hd pollFuel 0 0 (by decide)
  · intro e he
    rcases he with h | h <;>
      exact pollAttempt_cont_of_none pid e (by rw [h]; rfl)

/-- Witness for `c2_polling_times_out`: every poll attempt times out. -/
theorem c2_polling_times_out_witness :
    generateCore ⟨200, "", some "abc"⟩
        (fun _ => ⟨PollResponse.timeout, 0, ⟨0, none, ""⟩, 3⟩)
      = some (HttpResult.fail 408 "生成超时") :=
  (c2_polling_times_out ⟨200, "", some "abc"⟩ "abc" rfl rfl rfl
    (fun _ => ⟨PollResponse.timeout, 0, ⟨0, none, ""⟩, 3⟩)
    (fun _ => Nat.le_refl 3) (fun _ => rfl)).1

/-- C5: a submission response with a non-200 status, or one lacking a
(truthy) `prompt_id`, makes the request fail directly with a 500 — the
polling environment is never consulted (the same failure results under
any two environments) — and in the non-200 case the detail carries the
engine's response body. -/
theorem c5_submission_failure (r : SubmitResponse)
    (env env2 : Nat → AttemptEnv)
    (h : r.status ≠ 200 ∨ optStrFalsy r.promptId = true) :
    ∃ d : String, generateCore r env = some (HttpResult.fail 500 d) ∧
      generateCore r env2 = some (HttpResult.fail 500 d) ∧
      (r.status ≠ 200 → d = "ComfyUI 错误: " ++ r.body) := by
  rcases h with h | h
  · exact ⟨"ComfyUI 错误: " ++ r.body,
      by unfold generateCore submitStep; rw [if_pos h],
      by unfold generateCore submitStep; rw [if_pos h],
      fun _ => rfl⟩
  · by_cases hs : r.status = 200
    · have key : submitStep r = Except.error (500, "未能获取 prompt_id") := by
        unfold submitStep
        rw [if_neg (by simp [hs])]
        cases hh : r.promptId with
        | none => rfl
        | some pid =>
          rw [hh] at h
          simp only [optStrFalsy] at h
          simp [h]
      exact ⟨"未能获取 prompt_id",
        by unfold generateCore; rw [key],
        by unfold generateCore; rw [key],
        fun hc => absurd hs hc⟩
    · exact ⟨"ComfyUI 错误: " ++ r.body,
        by unfold generateCore submitStep; rw [if_pos hs],
        by unfold generateCore submitStep; rw [if_pos hs],
        fun _ => rfl⟩

/-- Witness for `c5_submission_failure`: engine answers HTTP 500 with
body "boom". -/
theorem c5_submission_failure_witness :
    ∃ d : String,
      generateCore ⟨500, "boom", none⟩
          (fun _ => ⟨PollResponse.timeout, 0, ⟨0, none, ""⟩, 3⟩)
        = some (HttpResult.fail 500 d) ∧
      generateCore ⟨500, "boom", none⟩
          (fun _ => ⟨PollResponse.ioError, 0, ⟨0, none, ""⟩, 3⟩)
        = some (HttpResult.fail 500 d) ∧
      ((500 : Nat) ≠ 200 → d = "ComfyUI 错误: " ++ "boom") :=
  c5_submission_failure ⟨500, "boom", none⟩
    (fun _ => ⟨PollResponse.timeout, 0, ⟨0, none, ""⟩, 3⟩)
    (fun _ => ⟨PollResponse.ioError, 0, ⟨0, none, ""⟩, 3⟩)
    (Or.inl (by decide))

/-- C3: a poll response of status 200 whose history holds the job id with
a non-empty image list under output node "60" ends the polling phase on
that very attempt: the decision is `Completed` with exactly the first
image entry's {filename, subfolder, type} (the remaining entries play no
role in the conclusion), and — the download succeeding — the loop returns
on attempt 1 with the response built from that first entry. -/
theorem c3_first_qualifying_completes (pid : String)
    (hist : List (String × JobHistory)) (jh : JobHistory) (out : NodeOutput)
    (e0 : ImageEntry) (rest : List ImageEntry)
    (h1 : lookupA hist pid = some jh)
    (h2 : lookupA jh.outputs "60" = some out)
    (h3 : out.images = e0 :: rest)
    (env : Nat → AttemptEnv)
    (he : (env 0).poll = PollResponse.ok 200 hist)
    (hdl : (env 0).downloadStatus = 200) :
    pollDecision pid (PollResponse.ok 200 hist)
      = some ⟨e0.filename, e0.subfolder.getD "", e0.ftype.getD "output"⟩ ∧
    runPollingAux pid env pollFuel 0 0
      = some (HttpResult.ok (publishOrFallback
          ⟨e0.filename, e0.subfolder.getD "", e0.ftype.getD "output"⟩ pid
          (env 0).publish)) := by
  have hdec : pollDecision pid (PollResponse.ok 200 hist)
      = some ⟨e0.filename, e0.subfolder.getD "", e0.ftype.getD "output"⟩ := by
    simp [pollDecision, h1, h2, h3]
  refine ⟨hdec, ?_⟩
  have hfin : pollAttempt pid (env 0) = AttemptOutcome.finished
      (publishOrFallback
        ⟨e0.filename, e0.subfolder.getD "", e0.ftype.getD "output"⟩ pid
        (env 0).publish) := by
    simp [pollAttempt, he, hdec, hdl]
  have hsucc : pollFuel = Nat.succ 349 := rfl
  rw [hsucc]
  exact runPollingAux_step_finished pid env 349 0 0 (by decide) _ hfin

/-- Concrete qualifying history for the C3 witness: job "abc" finished
with two image entries under node "60". -/
def histC3 : List (String × JobHistory) :=
  [("abc", JobHistory.mk [("60", NodeOutput.mk
    [ImageEntry.mk (some "out.png") (some "") (some "output"),
     ImageEntry.mk (some "extra.png") (some "sub") (some "temp")])])]

/-- Environment for the C3 witness: first attempt qualifies, download and
publication succeed. -/
def envC3 : Nat → AttemptEnv := fun _ =>
  ⟨PollResponse.ok 200 histC3, 200, ⟨200, some "https://cdn/x.png", ""⟩, 3⟩

/-- Witness for `c3_first_qualifying_completes`: the second image entry
("extra.png") is ignored; attempt 1 returns the first entry's response. -/
theorem c3_first_qualifying_completes_witness :
    pollDecision "abc" (PollResponse.ok 200 histC3)
      = some ⟨some "out.png", "", "output"⟩ ∧
    runPollingAux "abc" envC3 pollFuel 0 0
      = some (HttpResult.ok (publishOrFallback ⟨some "out.png", "", "output"⟩
          "abc" ⟨200, some "https://cdn/x.png", ""⟩)) :=
  c3_first_qualifying_completes "abc" histC3
    (JobHistory.mk [("60", NodeOutput.mk
      [ImageEntry.mk (some "out.png") (some "") (some "output"),
       ImageEntry.mk (some "extra.png") (some "sub") (some "temp")])])
    (NodeOutput.mk
      [ImageEntry.mk (some "out.png") (some "") (some "output"),
       ImageEntry.mk (some "extra.png") (some "sub") (some "temp")])
    (ImageEntry.mk (some "out.png") (some "") (some "output"))
    [ImageEntry.mk (some "extra.png") (some "sub") (some "temp")]
    (by decide) (by decide) rfl envC3 rfl rfl

/-- Concrete qualifying history for the C4 failing input. -/
def histC4 : List (String × JobHistory) :=
  [("abc", JobHistory.mk [("60", NodeOutput.mk
    [ImageEntry.mk (some "out.png") (some "") (some "output")])])]

/-- Environment exhibiting the C4 bug: every poll qualifies but the
`/view` download answers HTTP 500. -/
def envC4 : Nat → AttemptEnv := fun _ =>
  ⟨PollResponse.ok 200 histC4, 500, ⟨200, some "https://cdn/x.png", ""⟩, 3⟩

/-- C4 (code bug): the spec says a failed artifact download is a
`RetrievalError` surfaced as a 500.  In the code the
`raise Exception("无法下载生成的图片")` sits inside the polling loop's own
`try`, whose catch-all `except Exception` swallows it and keeps polling:
with the download answering 500 on every qualifying attempt, the iteration
outcome is `cont` and the request ends in the 408 timeout, not a 500. -/
theorem c4_retrieval_failure_absorbed :
    pollAttempt "abc" (envC4 0) = AttemptOutcome.cont ∧
    generateCore ⟨200, "", some "abc"⟩ envC4
      = some (HttpResult.fail 408 "生成超时") := by
  constructor
  · rfl
  · rfl

/-- C6: once a qualifying poll response arrived and the artifact download
succeeded, any publication failure — storage HTTP non-success, or a 200
response with a falsy `value` field — still yields `success = true` with
the proxy URL built from the artifact's filename and folder type; the
publication error is not surfaced. -/
theorem c6_publication_failure_fallback (pid : String) (e : AttemptEnv)
    (ref : ArtifactRef)
    (h1 : pollDecision pid e.poll = some ref)
    (h2 : e.downloadStatus = 200)
    (h3 : e.publish.status ≠ 200 ∨ optStrFalsy e.publish.value = true) :
    pollAttempt pid e
      = AttemptOutcome.finished ⟨true, some (proxyUrl ref), some pid, none⟩ := by
  have herr : ∃ msg, uploadToRemoteServer e.publish = Except.error msg := by
    unfold uploadToRemoteServer
    rcases h3 with h | h
    · rw [if_neg h]
      exact ⟨_, rfl⟩
    · by_cases hs : e.publish.status = 200
      · rw [if_pos hs]
        cases hv : e.publish.value with
        | none => exact ⟨_, rfl⟩
        | some v =>
          rw [hv] at h
          simp only [optStrFalsy] at h
          refine ⟨"响应中未包含地址: " ++ e.publish.body, ?_⟩
          simp [h]
      · rw [if_neg hs]
        exact ⟨_, rfl⟩
  obtain ⟨msg, hmsg⟩ := herr
  simp [pollAttempt, h1, h2, publishOrFallback, hmsg]

/-- Witness for `c6_publication_failure_fallback`: storage answers 500. -/
theorem c6_publication_failure_fallback_witness :
    pollAttempt "abc"
        ⟨PollResponse.ok 200 histC3, 200, ⟨500, none, "storage down"⟩, 3⟩
      = AttemptOutcome.finished
          ⟨true, some (proxyUrl ⟨some "out.png", "", "output"⟩), some "abc",
            none⟩ :=
  c6_publication_failure_fallback "abc"
    ⟨PollResponse.ok 200 histC3, 200, ⟨500, none, "storage down"⟩, 3⟩
    ⟨some "out.png", "", "output"⟩ (by decide) rfl (Or.inl (by decide))

/-- C7: on publication success — storage status 200 with a non-empty
`value` — the response's `image_url` is exactly that string. -/
theorem c7_published_url_exact (pid : String) (e : AttemptEnv)
    (ref : ArtifactRef) (v : String)
    (h1 : pollDecision pid e.poll = some ref)
    (h2 : e.downloadStatus = 200)
    (h3 : e.publish.status = 200)
    (h4 : e.publish.value = some v)
    (h5 : v.isEmpty = false) :
    pollAttempt pid e
      = AttemptOutcome.finished ⟨true, some v, some pid, none⟩ := by
  have hok : uploadToRemoteServer e.publish = Except.ok v := by
    simp [uploadToRemoteServer, h3, h4, h5]
  simp [pollAttempt, h1, h2, publishOrFallback, hok]

/-- Witness for `c7_published_url_exact`: storage answers
`{"value": "https://cdn/x.png"}`. -/
theorem c7_published_url_exact_witness :
    pollAttempt "abc"
        ⟨PollResponse.ok 200 histC3, 200,
          ⟨200, some "https://cdn/x.png", ""⟩, 3⟩
      = AttemptOutcome.finished
          ⟨true, some "https://cdn/x.png", some "abc", none⟩ :=
  c7_published_url_exact "abc"
    ⟨PollResponse.ok 200 histC3, 200, ⟨200, some "https://cdn/x.png", ""⟩, 3⟩
    ⟨some "out.png", "", "output"⟩ "https://cdn/x.png" (by decide) rfl rfl rfl
    rfl

/-- C9: a storage response of status 200 whose `value` field is the empty
string is treated exactly like an absent field — the check is on
falsiness: publication raises, and the caller falls back to the proxy
URL. -/
theorem c9_empty_value_is_publication_failure (b pid : String)
    (ref : ArtifactRef) :
    uploadToRemoteServer ⟨200, some "", b⟩
      = uploadToRemoteServer ⟨200, none, b⟩ ∧
    (∃ msg, uploadToRemoteServer ⟨200, some "", b⟩ = Except.error msg) ∧
    publishOrFallback ref pid ⟨200, some "", b⟩
      = ⟨true, some (proxyUrl ref), some pid, none⟩ :=
  ⟨rfl, ⟨"响应中未包含地址: " ++ b, rfl⟩, rfl⟩

theorem contains_append_comma (q : List Char) :
    ∀ p : List Char, (p ++ ',' :: q).contains ',' = true := by
  intro p
  induction p with
  | nil => simp
  | cons x xs ih => simp [ih]

theorem splitOnceAfter_append (q : List Char) :
    ∀ p : List Char, p.contains ',' = false →
      splitOnceAfter ',' (p ++ ',' :: q) = q := by
  intro p
  induction p with
  | nil => simp [splitOnceAfter]
  | cons x xs ih =>
    intro h
    by_cases hx : x = ','
    · rw [hx] at h
      simp at h
    · have h2 : xs.contains ',' = false := by
        simp only [List.contains_cons] at h
        exact (Bool.or_eq_false_iff.mp h).2
      simp only [List.cons_append, splitOnceAfter, if_neg hx]
      exact ih h2

/-- C10: in base64 mode, everything up to and including the FIRST comma
is discarded before decoding — whatever the prefix is — and a comma-free
input is decoded whole. -/
theorem c10_strip_through_first_comma :
    (∀ p q : List Char, p.contains ',' = false →
      stripB64Header (p ++ ',' :: q) = q) ∧
    (∀ s : List Char, s.contains ',' = false → stripB64Header s = s) := by
  constructor
  · intro p q hp
    unfold stripB64Header
    rw [if_pos (contains_append_comma q p)]
    exact splitOnceAfter_append q p hp
  · intro s hs
    unfold stripB64Header
    rw [if_neg (by rw [hs]; simp)]

/-- Witness for `c10_strip_through_first_comma`: a data-URI header is
stripped; the prefix need not be a genuine header. -/
theorem c10_strip_through_first_comma_witness :
    stripB64Header ("data:image/png;base64".data ++ ',' :: "iVBORw0KGgo".data)
      = "iVBORw0KGgo".data :=
  c10_strip_through_first_comma.1 "data:image/png;base64".data
    "iVBORw0KGgo".data (by decide)

end PaperCutting
